import Mathlib

/-!
Shallow embedding of `src/main.py` (Automatic-BAY-NYC flight notifier).

The Python module reads configuration from the environment, queries the
Amadeus flight-offers API for every (origin, destination) pair of a fixed
configuration, accumulates the returned offers, and sends one consolidated
email when offers were found.  External effects (environment, provider,
SMTP) are modelled as explicit parameters; exceptions are modelled with
`Except` / `Option`; the log sink is modelled by recording the relevant
log events in result records.
-/

/-- The process environment: `os.getenv` returns `none` when a variable is
unset and `some s` when it is set to the string `s`. -/
def Env : Type := String → Option String

/-- Constant `REQUIRED_ENV_VARS` from `src/main.py` lines 14-20. -/
def REQUIRED_ENV_VARS : List String :=
  ["AMADEUS_CLIENT_ID", "AMADEUS_CLIENT_SECRET", "SENDER_EMAIL",
   "SENDER_EMAIL_PASSWORD", "RECIPIENT_EMAIL"]

/-- Python truthiness of an `os.getenv` result: `None` and the empty string
are falsy, every other string is truthy (`not os.getenv(var)` in line 24). -/
def truthyEnv : Option String → Bool
  | none => false
  | some s => !(s == "")

/-- The list comprehension of `src/main.py` line 24:
`[var for var in REQUIRED_ENV_VARS if not os.getenv(var)]`. -/
def missing_vars (env : Env) : List String :=
  REQUIRED_ENV_VARS.filter (fun v => !truthyEnv (env v))

/-- Function `validate_env_vars` from `src/main.py` lines 22-26: raises `ValueError`
(modelled as `Except.error` carrying the message) when any required variable
is unset or empty, returns normally otherwise. -/
def validate_env_vars (env : Env) : Except String Unit :=
  if (missing_vars env).isEmpty then Except.ok ()
  else Except.error ("Missing required environment variables: " ++
    String.intercalate ", " (missing_vars env))

/-- The `CONFIG` dictionary shape, `src/main.py` lines 39-45. -/
structure Config where
  ORIGIN_AIRPORTS : List String
  DESTINATION_AIRPORTS : List String
  AIRLINES : List String
  MAX_PRICE : Nat
  DAYS_AHEAD : Nat
deriving DecidableEq

/-- The concrete module-level `CONFIG` value of `src/main.py`. -/
def CONFIG : Config :=
  { ORIGIN_AIRPORTS := ["LGA", "JFK"]
    DESTINATION_AIRPORTS := ["OAK", "SJC"]
    AIRLINES := ["B6", "UA", "AA"]
    MAX_PRICE := 500
    DAYS_AHEAD := 1 }

/-- One provider offer record as consumed by `src/main.py`.  The Python code
receives offers as dictionaries; a field an offer may lack is modelled as an
`Option` (`none` = the key is absent, so subscripting raises `KeyError`).
`flight['price']['total']` is modelled as the single field `priceTotal`, and
`validatingAirlineCodes` keeps its list shape since the code subscripts `[0]`. -/
structure Offer where
  originLocationCode : Option String
  destinationLocationCode : Option String
  validatingAirlineCodes : Option (List String)
  priceTotal : Option String
  nonStop : Bool
deriving DecidableEq

/-- Outcome of one call to
`self.amadeus.shopping.flight_offers_search.get(...)`:
a successful response with its `data` list, a raised `ResponseError`
(the only exception class caught in line 80), or any other raised
exception, which escapes `search_flights`. -/
inductive ProviderOutcome where
  | success (offers : List Offer)
  | responseError (detail : String)
  | otherException (detail : String)
deriving DecidableEq

/-- The provider collaborator: outcome of the query for each
(origin, destination) pair. -/
def Provider : Type := String → String → ProviderOutcome

/-- The cartesian iteration order of the two nested `for` loops of
`src/main.py` lines 63-64: origins outer, destinations inner. -/
def pairsOf (origins destinations : List String) : List (String × String) :=
  origins.flatMap (fun o => destinations.map (fun d => (o, d)))

/-- The selector for the offers a pair contributes: the `data` list on
success, nothing on a caught `ResponseError`. -/
def successOffers : ProviderOutcome → List Offer
  | ProviderOutcome.success offers => offers
  | ProviderOutcome.responseError _ => []
  | ProviderOutcome.otherException _ => []

/-- The loop body of `search_flights` (`src/main.py` lines 63-82), iterating
over the remaining pairs with the accumulated `found_flights`.  Returns the
pairs actually queried, in order, together with either the final accumulator
or the detail of an exception that escaped the `except ResponseError` clause.
`if response.data:` (line 77) guards the `extend`, which is why the empty
list is appended via the same conditional. -/
def searchLoop (provider : Provider) :
    List (String × String) → List Offer →
    List (String × String) × Except String (List Offer)
  | [], found_flights => ([], Except.ok found_flights)
  | (origin, destination) :: rest, found_flights =>
    match provider origin destination with
    | ProviderOutcome.success offers =>
      let acc := if offers.isEmpty then found_flights else found_flights ++ offers
      let r := searchLoop provider rest acc
      ((origin, destination) :: r.1, r.2)
    | ProviderOutcome.responseError _ =>
      let r := searchLoop provider rest found_flights
      ((origin, destination) :: r.1, r.2)
    | ProviderOutcome.otherException e => ([(origin, destination)], Except.error e)

/-- Method `FlightNotifier.search_flights` (`src/main.py` lines 58-83), with the
configuration and the provider collaborator made explicit.  First component:
the provider queries issued, in order.  Second component: the returned
`found_flights` list, or the escaping exception. -/
def search_flights (cfg : Config) (provider : Provider) :
    List (String × String) × Except String (List Offer) :=
  searchLoop provider (pairsOf cfg.ORIGIN_AIRPORTS cfg.DESTINATION_AIRPORTS) []

/-- A provider whose every outcome is a response (successful or a
`ResponseError`) — no exception escapes the per-pair `try`. -/
def NoEscape (provider : Provider) : Prop :=
  ∀ o d e, provider o d ≠ ProviderOutcome.otherException e

theorem searchLoop_noEscape (provider : Provider) (h : NoEscape provider) :
    ∀ (ps : List (String × String)) (acc : List Offer),
      searchLoop provider ps acc =
        (ps, Except.ok (acc ++ ps.flatMap (fun p => successOffers (provider p.1 p.2)))) := by
  intro ps
  induction ps with
  | nil => intro acc; simp [searchLoop]
  | cons p rest ih =>
    intro acc
    obtain ⟨o, d⟩ := p
    cases hp : provider o d with
    | success offers =>
      cases offers with
      | nil => simp [searchLoop, hp, ih, successOffers]
      | cons f fs => simp [searchLoop, hp, ih, successOffers]
    | responseError e => simp [searchLoop, hp, ih, successOffers]
    | otherException e => exact absurd hp (h o d e)

theorem pairsOf_length (origins destinations : List String) :
    (pairsOf origins destinations).length =
      origins.length * destinations.length := by
  induction origins with
  | nil => simp [pairsOf]
  | cons o os ih =>
    simp only [pairsOf, List.flatMap_cons, List.length_append, List.length_map] at ih ⊢
    rw [ih]
    simp only [List.length_cons]
    ring

/-- The `NotificationMessage` assembled in `send_email` (`src/main.py`
lines 92-103): `msg['From']`, `msg['To']`, `msg['Subject']` and the attached
plain-text body.  `From`/`To` keep the `Option` of `os.getenv`. -/
structure NotificationMessage where
  msgFrom : Option String
  msgTo : Option String
  subject : String
  body : String
deriving DecidableEq

/-- The body lines appended for one flight (`src/main.py` lines 99-101).
Each dictionary subscript is an `Option` bind: a missing key (`KeyError`)
or `validatingAirlineCodes[0]` on an empty list (`IndexError`) makes the
whole construction raise, modelled as `none`. -/
def offerBlock (flight : Offer) : Option String := do
  let origin ← flight.originLocationCode
  let destination ← flight.destinationLocationCode
  let codes ← flight.validatingAirlineCodes
  let airline ← codes.head?
  let total ← flight.priceTotal
  pure ("From: " ++ origin ++ " To: " ++ destination ++ "\n" ++
        "Airline: " ++ airline ++ "\n" ++
        "Price: $" ++ total ++ "\n\n")

/-- The `for flight in flights` body-accumulation loop of `send_email`:
concatenates the per-flight blocks, propagating a raised exception. -/
def buildBody : List Offer → Option String
  | [] => some ""
  | flight :: rest => do
    let block ← offerBlock flight
    let restBody ← buildBody rest
    pure (block ++ restBody)

/-- The message-construction part of `send_email` (`src/main.py`
lines 92-103): `none` when building the body raises.  The subject is
`f"Flight Alert: {len(flights)} Direct Flights Found!"` (line 95) and the
body is prefixed by `"Direct Flights Found:\n\n"` (line 97). -/
def composeMessage (env : Env) (flights : List Offer) :
    Option NotificationMessage := do
  let body ← buildBody flights
  pure { msgFrom := env "SENDER_EMAIL"
         msgTo := env "RECIPIENT_EMAIL"
         subject := "Flight Alert: " ++ toString flights.length ++
           " Direct Flights Found!"
         body := "Direct Flights Found:\n\n" ++ body }

/-- Outcome of the SMTP block (`src/main.py` lines 105-110): everything
succeeds; an exception before `server.send_message` is reached (connect,
`starttls`, `login`); or an exception raised by `server.send_message`
itself, after the notifier has been invoked. -/
inductive SmtpOutcome where
  | ok
  | failBeforeSend (detail : String)
  | failDuringSend (detail : String)
deriving DecidableEq

/-- Observable result of one `send_email` call: the messages actually
handed to `server.send_message` (the notifier invocations), whether the
`except` clause of line 111 logged an error, and whether the
"No flights found" path of line 88 was taken. -/
structure SendResult where
  notifierInvocations : List NotificationMessage
  errorLogged : Bool
  noFlightsLogged : Bool
deriving DecidableEq

/-- Method `FlightNotifier.send_email` (`src/main.py` lines 85-112) with the
environment and the SMTP collaborator outcome made explicit.  `if not
flights:` returns early; otherwise the message is composed and sent inside
`try`, and every exception of that block is caught and logged (line 111). -/
def send_email (env : Env) (smtp : SmtpOutcome) (flights : List Offer) :
    SendResult :=
  if flights.isEmpty then
    { notifierInvocations := [], errorLogged := false, noFlightsLogged := true }
  else
    match composeMessage env flights with
    | none =>
      { notifierInvocations := [], errorLogged := true, noFlightsLogged := false }
    | some msg =>
      match smtp with
      | SmtpOutcome.ok =>
        { notifierInvocations := [msg], errorLogged := false, noFlightsLogged := false }
      | SmtpOutcome.failBeforeSend _ =>
        { notifierInvocations := [], errorLogged := true, noFlightsLogged := false }
      | SmtpOutcome.failDuringSend _ =>
        { notifierInvocations := [msg], errorLogged := true, noFlightsLogged := false }

/-- Outcome of `FlightNotifier.__init__` (`src/main.py` lines 48-56): the
Amadeus `Client` constructor either succeeds or raises (the exception is
logged and re-raised). -/
inductive ClientInitOutcome where
  | ok
  | failure (detail : String)
deriving DecidableEq

/-- Observable result of one `main()` invocation: the process exit code,
the provider queries issued, the notifier invocations, the error entries
logged by `main`'s own `except` clause (line 121), and whether
`send_email`'s `except` clause logged an error. -/
structure MainResult where
  exitCode : Nat
  queries : List (String × String)
  notifierInvocations : List NotificationMessage
  fatalLogs : List String
  emailErrorLogged : Bool
deriving DecidableEq

/-- The log message of `src/main.py` line 121. -/
def mainErrMsg (e : String) : String :=
  "Unexpected error in main function: " ++ e

namespace Src

/-- Function `main` (`src/main.py` lines 114-121): validate the environment, build
the notifier, search, send; any exception raised by those steps is caught
by the single `except Exception` clause, logged, and the function returns
normally, so the process exits with code 0 in every case.  (Lean reserves
the top-level name `main`, hence the namespace.) -/
def main (env : Env) (cfg : Config) (clientInit : ClientInitOutcome)
    (provider : Provider) (smtp : SmtpOutcome) : MainResult :=
  match validate_env_vars env with
  | Except.error e =>
    { exitCode := 0, queries := [], notifierInvocations := []
      fatalLogs := [mainErrMsg e], emailErrorLogged := false }
  | Except.ok _ =>
    match clientInit with
    | ClientInitOutcome.failure e =>
      { exitCode := 0, queries := [], notifierInvocations := []
        fatalLogs := [mainErrMsg e], emailErrorLogged := false }
    | ClientInitOutcome.ok =>
      let searchRun := search_flights cfg provider
      match searchRun.2 with
      | Except.error e =>
        { exitCode := 0, queries := searchRun.1, notifierInvocations := []
          fatalLogs := [mainErrMsg e], emailErrorLogged := false }
      | Except.ok flights =>
        let sendRes := send_email env smtp flights
        { exitCode := 0, queries := searchRun.1
          notifierInvocations := sendRes.notifierInvocations
          fatalLogs := [], emailErrorLogged := sendRes.errorLogged }

end Src

/-!  Claim theorems. -/

/-- C1: for every configuration with N origins and M destinations and a
provider from which no exception escapes the per-pair handler, the pair
search issues exactly N×M provider queries, one per (origin, destination)
combination, in origin-major order (origins outer, destinations inner). -/
theorem C1_pair_search_cartesian (cfg : Config) (provider : Provider)
    (h : NoEscape provider) :
    (search_flights cfg provider).1 =
      cfg.ORIGIN_AIRPORTS.flatMap
        (fun o => cfg.DESTINATION_AIRPORTS.map (fun d => (o, d))) ∧
    (search_flights cfg provider).1.length =
      cfg.ORIGIN_AIRPORTS.length * cfg.DESTINATION_AIRPORTS.length := by
  have hs := searchLoop_noEscape provider h
    (pairsOf cfg.ORIGIN_AIRPORTS cfg.DESTINATION_AIRPORTS) []
  constructor
  · rw [search_flights, hs]
    rfl
  · rw [search_flights, hs]
    exact pairsOf_length _ _

/-- A provider every query of which succeeds with an empty offer list. -/
def provAllEmpty : Provider := fun _ _ => ProviderOutcome.success []

theorem C1_pair_search_cartesian_witness :
    NoEscape provAllEmpty ∧
    (search_flights CONFIG provAllEmpty).1 =
      [("LGA", "OAK"), ("LGA", "SJC"), ("JFK", "OAK"), ("JFK", "SJC")] ∧
    (search_flights CONFIG provAllEmpty).1.length = 2 * 2 := by
  have hne : NoEscape provAllEmpty := by
    intro o d e
    simp [provAllEmpty]
  have h := C1_pair_search_cartesian CONFIG provAllEmpty hne
  exact ⟨hne, by rw [h.1]; rfl, by rw [h.2]; rfl⟩

/-- C2: with per-pair outcomes limited to a successful response or a
provider-reported `ResponseError`, an error on one pair does not abort the
run: every pair is still queried, a failed pair contributes no offers, and
the aggregated result is exactly the in-order concatenation of the
successful pairs' offer lists (earlier offers are retained). -/
theorem C2_per_pair_failure_isolated (cfg : Config) (provider : Provider)
    (h : NoEscape provider) :
    (search_flights cfg provider).1 =
      pairsOf cfg.ORIGIN_AIRPORTS cfg.DESTINATION_AIRPORTS ∧
    (search_flights cfg provider).2 =
      Except.ok ((pairsOf cfg.ORIGIN_AIRPORTS cfg.DESTINATION_AIRPORTS).flatMap
        (fun p => successOffers (provider p.1 p.2))) := by
  have hs := searchLoop_noEscape provider h
    (pairsOf cfg.ORIGIN_AIRPORTS cfg.DESTINATION_AIRPORTS) []
  rw [search_flights, hs]
  exact ⟨rfl, by simp⟩

/-- An offer as the provider would return it for the (JFK, OAK) pair. -/
def offerJfkOak : Offer :=
  { originLocationCode := some "JFK"
    destinationLocationCode := some "OAK"
    validatingAirlineCodes := some ["B6"]
    priceTotal := some "420.00"
    nonStop := true }

/-- A provider that succeeds with one offer on (JFK, OAK) and reports a
`ResponseError` on every other pair. -/
def provMixed : Provider := fun o d =>
  if o == "JFK" && d == "OAK" then ProviderOutcome.success [offerJfkOak]
  else ProviderOutcome.responseError "unsupported route"

theorem C2_per_pair_failure_isolated_witness :
    NoEscape provMixed ∧
    (search_flights CONFIG provMixed).1 =
      [("LGA", "OAK"), ("LGA", "SJC"), ("JFK", "OAK"), ("JFK", "SJC")] ∧
    (search_flights CONFIG provMixed).2 = Except.ok [offerJfkOak] := by
  have hne : NoEscape provMixed := by
    intro o d e
    simp only [provMixed]
    split <;> simp
  have h := C2_per_pair_failure_isolated CONFIG provMixed hne
  exact ⟨hne, by rw [h.1]; rfl, by rw [h.2]; rfl⟩

/-- C6: aggregation is plain concatenation.  When every pair's query
succeeds, the aggregated result is the concatenation of the per-pair offer
lists in pair-iteration order, with each list kept intact (responses in
provider order, no deduplication, no re-sorting), and when every per-pair
list is empty the aggregated result is the empty list, not an error. -/
theorem C6_aggregation_concatenation (cfg : Config)
    (respond : String → String → List Offer) :
    (search_flights cfg (fun o d => ProviderOutcome.success (respond o d))).2 =
      Except.ok ((pairsOf cfg.ORIGIN_AIRPORTS cfg.DESTINATION_AIRPORTS).flatMap
        (fun p => respond p.1 p.2)) ∧
    ((∀ o d, respond o d = []) →
      (search_flights cfg (fun o d => ProviderOutcome.success (respond o d))).2 =
        Except.ok []) := by
  have hne : NoEscape (fun o d => ProviderOutcome.success (respond o d)) := by
    intro o d e
    simp
  have hs := searchLoop_noEscape _ hne
    (pairsOf cfg.ORIGIN_AIRPORTS cfg.DESTINATION_AIRPORTS) []
  constructor
  · rw [search_flights, hs]
    simp [successOffers]
  · intro hempty
    rw [search_flights, hs]
    simp [successOffers, hempty]

/-- Per-pair offer lists exercising concatenation: duplicates across pairs
are kept and within-pair order is preserved. -/
def respondDup : String → String → List Offer := fun o _ =>
  if o == "LGA" then [offerJfkOak, offerJfkOak] else []

/-- Per-pair offer lists that are all empty. -/
def respondNone : String → String → List Offer := fun _ _ => []

theorem C6_aggregation_concatenation_witness :
    (search_flights CONFIG
        (fun o d => ProviderOutcome.success (respondDup o d))).2 =
      Except.ok [offerJfkOak, offerJfkOak, offerJfkOak, offerJfkOak] ∧
    (∀ o d, respondNone o d = []) ∧
    (search_flights CONFIG
        (fun o d => ProviderOutcome.success (respondNone o d))).2 =
      Except.ok [] := by
  refine ⟨?_, fun o d => rfl, ?_⟩
  · rw [(C6_aggregation_concatenation CONFIG respondDup).1]
    rfl
  · exact (C6_aggregation_concatenation CONFIG respondNone).2 (fun o d => rfl)

/-- A one-origin, one-destination configuration. -/
def cfg1x1 : Config :=
  { ORIGIN_AIRPORTS := ["LGA"]
    DESTINATION_AIRPORTS := ["OAK"]
    AIRLINES := ["B6"]
    MAX_PRICE := 500
    DAYS_AHEAD := 1 }

/-- A connecting itinerary: an offer with `nonstop = false`. -/
def connectingOffer : Offer :=
  { originLocationCode := some "LGA"
    destinationLocationCode := some "OAK"
    validatingAirlineCodes := some ["B6"]
    priceTotal := some "450.00"
    nonStop := false }

/-- C3 counterexample: the code performs no offer validation of its own.
A provider response whose single offer has `nonstop = false` ends up in the
aggregated `found_flights` result — the offer is not excluded and no
anomaly is detected. -/
theorem C3_counterexample_nonstop_kept :
    connectingOffer.nonStop = false ∧
    (search_flights cfg1x1
        (fun _ _ => ProviderOutcome.success [connectingOffer])).2 =
      Except.ok [connectingOffer] :=
  ⟨rfl, rfl⟩

theorem buildBody_none_of_mem (flights : List Offer) (f : Offer)
    (hf : f ∈ flights) (hb : offerBlock f = none) : buildBody flights = none := by
  induction flights with
  | nil => cases hf
  | cons g rest ih =>
    rcases List.mem_cons.1 hf with hg | hmem
    · subst hg
      simp [buildBody, hb]
    · cases hob : offerBlock g <;> simp [buildBody, hob, ih hmem]

/-- C3 amended: the pipeline itself filters nothing.  Every offer of a
successful provider response is included in the aggregated result
unchanged, whatever its nonstop flag or missing fields; an offer missing
an expected field (price, airline codes) only surfaces while the email
body is built, where the raised exception is caught and logged inside
`send_email`, so the run does not crash and the notifier is never handed a
message — but then no notification at all is sent for that run. -/
theorem C3_missing_field_aborts_email (l : List Offer) (env : Env)
    (smtp : SmtpOutcome) (flights : List Offer) (f : Offer)
    (hf : f ∈ flights) (hb : offerBlock f = none) :
    (search_flights cfg1x1 (fun _ _ => ProviderOutcome.success l)).2 =
      Except.ok l ∧
    (send_email env smtp flights).notifierInvocations = [] ∧
    (send_email env smtp flights).errorLogged = true := by
  have hagg : (search_flights cfg1x1
      (fun _ _ => ProviderOutcome.success l)).2 = Except.ok l := by
    cases l with
    | nil => rfl
    | cons a as => simp [search_flights, pairsOf, searchLoop]
  have hbody := buildBody_none_of_mem flights f hf hb
  have hcomp : composeMessage env flights = none := by
    simp [composeMessage, hbody]
  have hne : flights ≠ [] := List.ne_nil_of_mem hf
  have hemp : flights.isEmpty = false := by
    simpa [List.isEmpty_iff] using hne
  refine ⟨hagg, ?_, ?_⟩ <;> simp [send_email, hemp, hcomp]

/-- An offer whose `price` key is absent. -/
def offerNoPrice : Offer :=
  { originLocationCode := some "LGA"
    destinationLocationCode := some "OAK"
    validatingAirlineCodes := some ["B6"]
    priceTotal := none
    nonStop := true }

/-- An environment in which every variable is set to `"x"`. -/
def envAllSet : Env := fun _ => some "x"

theorem C3_missing_field_aborts_email_witness :
    offerNoPrice ∈ [offerNoPrice] ∧
    offerBlock offerNoPrice = none ∧
    (search_flights cfg1x1
        (fun _ _ => ProviderOutcome.success [connectingOffer])).2 =
      Except.ok [connectingOffer] ∧
    (send_email envAllSet SmtpOutcome.ok [offerNoPrice]).notifierInvocations = [] ∧
    (send_email envAllSet SmtpOutcome.ok [offerNoPrice]).errorLogged = true := by
  have h := C3_missing_field_aborts_email [connectingOffer] envAllSet
    SmtpOutcome.ok [offerNoPrice] offerNoPrice (List.mem_singleton.2 rfl) rfl
  exact ⟨List.mem_singleton.2 rfl, rfl, h.1, h.2.1, h.2.2⟩

/-- C4: on an empty aggregated result `send_email` logs the no-op and the
notifier is never invoked; in every run the notifier is invoked at most
once, and only when the aggregated result is non-empty. -/
theorem C4_notifier_at_most_once (env : Env) (smtp : SmtpOutcome)
    (flights : List Offer) :
    (send_email env smtp []).notifierInvocations = [] ∧
    (send_email env smtp []).noFlightsLogged = true ∧
    (send_email env smtp flights).notifierInvocations.length ≤ 1 ∧
    ((send_email env smtp flights).notifierInvocations ≠ [] → flights ≠ []) := by
  refine ⟨rfl, rfl, ?_, ?_⟩
  · cases hemp : flights.isEmpty <;>
      simp only [send_email, hemp, if_true, if_false]
    · cases composeMessage env flights <;> cases smtp <;> simp
    · simp
  · intro hinv
    intro hnil
    subst hnil
    exact hinv rfl

theorem C4_notifier_at_most_once_witness :
    (send_email envAllSet SmtpOutcome.ok []).notifierInvocations = [] ∧
    (send_email envAllSet SmtpOutcome.ok []).noFlightsLogged = true ∧
    (send_email envAllSet SmtpOutcome.ok [offerJfkOak]).notifierInvocations.length ≤ 1 ∧
    ((send_email envAllSet SmtpOutcome.ok [offerJfkOak]).notifierInvocations ≠ [] →
      [offerJfkOak] ≠ ([] : List Offer)) :=
  C4_notifier_at_most_once envAllSet SmtpOutcome.ok [offerJfkOak]

/-- An offer that carries every field the body construction subscripts:
the origin, the destination, a non-empty airline-code list, and a price. -/
def wellFormedOffer (f : Offer) : Bool :=
  f.originLocationCode.isSome && f.destinationLocationCode.isSome &&
    (match f.validatingAirlineCodes with
     | some (_ :: _) => true
     | _ => false) &&
    f.priceTotal.isSome

/-- The block the spec prescribes for one offer: the fields origin,
destination, airline code and total price, in that order, one block per
offer. -/
def specBlock (f : Offer) : String :=
  "From: " ++ f.originLocationCode.getD "" ++ " To: " ++
    f.destinationLocationCode.getD "" ++ "\n" ++
  "Airline: " ++ (f.validatingAirlineCodes.getD []).headD "" ++ "\n" ++
  "Price: $" ++ f.priceTotal.getD "" ++ "\n\n"

theorem string_join_cons (s : String) (l : List String) :
    String.join (s :: l) = s ++ String.join l := by
  simp [String.join_eq, String.ext_iff]

theorem offerBlock_of_wellFormed (f : Offer) (h : wellFormedOffer f = true) :
    offerBlock f = some (specBlock f) := by
  obtain ⟨o, d, codes, p, ns⟩ := f
  simp only [wellFormedOffer, Bool.and_eq_true] at h
  obtain ⟨⟨⟨ho, hd⟩, hc⟩, hp⟩ := h
  obtain ⟨ov, rfl⟩ := Option.isSome_iff_exists.1 ho
  obtain ⟨dv, rfl⟩ := Option.isSome_iff_exists.1 hd
  obtain ⟨pv, rfl⟩ := Option.isSome_iff_exists.1 hp
  cases codes with
  | none => simp at hc
  | some cs =>
    cases cs with
    | nil => simp at hc
    | cons a rest => simp [offerBlock, specBlock]

theorem buildBody_of_wellFormed (flights : List Offer)
    (h : ∀ f ∈ flights, wellFormedOffer f = true) :
    buildBody flights = some (String.join (flights.map specBlock)) := by
  induction flights with
  | nil => simp [buildBody, String.join]
  | cons g rest ih =>
    have hg := offerBlock_of_wellFormed g (h g (List.mem_cons_self g rest))
    have hrest := ih (fun f hf => h f (List.mem_cons_of_mem g hf))
    simp [buildBody, hg, hrest, string_join_cons]

/-- C5: for a non-empty aggregated result of well-shaped offers, the
composed message's subject encodes the offer count and its body is the
header followed by one block per offer, in aggregated-result order, each
block holding exactly origin, destination, airline code and total price,
in that order. -/
theorem C5_message_format (env : Env) (flights : List Offer)
    (hne : flights ≠ [])
    (hwf : ∀ f ∈ flights, wellFormedOffer f = true) :
    composeMessage env flights = some
      { msgFrom := env "SENDER_EMAIL"
        msgTo := env "RECIPIENT_EMAIL"
        subject := "Flight Alert: " ++ toString flights.length ++
          " Direct Flights Found!"
        body := "Direct Flights Found:\n\n" ++
          String.join (flights.map specBlock) } ∧
    (send_email env SmtpOutcome.ok flights).notifierInvocations.length = 1 := by
  have hbody := buildBody_of_wellFormed flights hwf
  have hcomp : composeMessage env flights = some
      { msgFrom := env "SENDER_EMAIL"
        msgTo := env "RECIPIENT_EMAIL"
        subject := "Flight Alert: " ++ toString flights.length ++
          " Direct Flights Found!"
        body := "Direct Flights Found:\n\n" ++
          String.join (flights.map specBlock) } := by
    simp [composeMessage, hbody]
  have hemp : flights.isEmpty = false := by
    simpa [List.isEmpty_iff] using hne
  exact ⟨hcomp, by simp [send_email, hemp, hcomp]⟩

theorem C5_message_format_witness :
    ([offerJfkOak, connectingOffer] ≠ ([] : List Offer)) ∧
    (∀ f ∈ [offerJfkOak, connectingOffer], wellFormedOffer f = true) ∧
    composeMessage envAllSet [offerJfkOak, connectingOffer] = some
      { msgFrom := some "x"
        msgTo := some "x"
        subject := "Flight Alert: 2 Direct Flights Found!"
        body := "Direct Flights Found:\n\n" ++
          "From: JFK To: OAK\nAirline: B6\nPrice: $420.00\n\n" ++
          "From: LGA To: OAK\nAirline: B6\nPrice: $450.00\n\n" } := by
  have hne : [offerJfkOak, connectingOffer] ≠ ([] : List Offer) := by
    simp
  have hwf : ∀ f ∈ [offerJfkOak, connectingOffer], wellFormedOffer f = true := by
    decide
  have h := C5_message_format envAllSet [offerJfkOak, connectingOffer] hne hwf
  refine ⟨hne, hwf, ?_⟩
  rw [h.1]
  rfl

/-- C7: every exception raised during the run is caught and logged rather
than propagated, and the process ends with exit code 0 in every case: an
exception escaping the provider client beyond the per-pair isolation is
caught and logged by `main`'s `except` clause, and an exception from the
notifier is caught and logged inside `send_email`. -/
theorem C7_exceptions_caught_exit_zero (env : Env) (cfg : Config)
    (clientInit : ClientInitOutcome) (provider : Provider) (smtp : SmtpOutcome) :
    (Src.main env cfg clientInit provider smtp).exitCode = 0 ∧
    (validate_env_vars env = Except.ok () → clientInit = ClientInitOutcome.ok →
      ∀ e, (search_flights cfg provider).2 = Except.error e →
        (Src.main env cfg clientInit provider smtp).fatalLogs = [mainErrMsg e] ∧
        (Src.main env cfg clientInit provider smtp).notifierInvocations = []) ∧
    (∀ flights d, flights ≠ ([] : List Offer) →
      (send_email env (SmtpOutcome.failDuringSend d) flights).errorLogged = true) := by
  refine ⟨?_, ?_, ?_⟩
  · unfold Src.main
    cases validate_env_vars env with
    | error e => rfl
    | ok u =>
      cases clientInit with
      | failure e => rfl
      | ok =>
        cases hsearch : (search_flights cfg provider).2 with
        | error e => simp [hsearch]
        | ok flights => simp [hsearch]
  · intro hv hci e hsearch
    subst hci
    simp [Src.main, hv, hsearch]
  · intro flights d hne
    have hemp : flights.isEmpty = false := by
      simpa [List.isEmpty_iff] using hne
    cases hcomp : composeMessage env flights <;>
      simp [send_email, hemp, hcomp]

/-- A provider whose first query raises an exception that is not a
`ResponseError`. -/
def provRaises : Provider := fun _ _ => ProviderOutcome.otherException "boom"

theorem C7_exceptions_caught_exit_zero_witness :
    (Src.main envAllSet CONFIG ClientInitOutcome.ok provRaises
      SmtpOutcome.ok).exitCode = 0 ∧
    validate_env_vars envAllSet = Except.ok () ∧
    (search_flights CONFIG provRaises).2 = Except.error "boom" ∧
    (Src.main envAllSet CONFIG ClientInitOutcome.ok provRaises
      SmtpOutcome.ok).fatalLogs = [mainErrMsg "boom"] ∧
    (send_email envAllSet (SmtpOutcome.failDuringSend "refused")
      [offerJfkOak]).errorLogged = true := by
  have h := C7_exceptions_caught_exit_zero envAllSet CONFIG
    ClientInitOutcome.ok provRaises SmtpOutcome.ok
  have hv : validate_env_vars envAllSet = Except.ok () := rfl
  have hs : (search_flights CONFIG provRaises).2 = Except.error "boom" := rfl
  refine ⟨h.1, hv, hs, (h.2.1 hv rfl "boom" hs).1, ?_⟩
  exact h.2.2 [offerJfkOak] "refused" (by simp)

/-- C8: when a required environment variable is unset or empty, the run
fails at configuration validation: zero provider queries are issued, the
notifier is never invoked, and the configuration failure is reported by
exactly one fatal log entry naming the missing variables, while the
process still exits with code 0. -/
theorem C8_config_failure_before_search (env : Env) (cfg : Config)
    (clientInit : ClientInitOutcome) (provider : Provider) (smtp : SmtpOutcome)
    (v : String) (hv : v ∈ REQUIRED_ENV_VARS)
    (hmiss : env v = none ∨ env v = some "") :
    (Src.main env cfg clientInit provider smtp).queries = [] ∧
    (Src.main env cfg clientInit provider smtp).notifierInvocations = [] ∧
    (Src.main env cfg clientInit provider smtp).fatalLogs =
      [mainErrMsg ("Missing required environment variables: " ++
        String.intercalate ", " (missing_vars env))] ∧
    (Src.main env cfg clientInit provider smtp).fatalLogs.length = 1 ∧
    (Src.main env cfg clientInit provider smtp).exitCode = 0 := by
  have hvmem : v ∈ missing_vars env := by
    refine List.mem_filter.2 ⟨hv, ?_⟩
    rcases hmiss with h0 | h0 <;> simp [truthyEnv, h0]
  have hemp : (missing_vars env).isEmpty = false := by
    simpa [List.isEmpty_iff] using List.ne_nil_of_mem hvmem
  have hval : validate_env_vars env =
      Except.error ("Missing required environment variables: " ++
        String.intercalate ", " (missing_vars env)) := by
    simp [validate_env_vars, hemp]
  unfold Src.main
  rw [hval]
  exact ⟨rfl, rfl, rfl, rfl, rfl⟩

/-- An environment in which `RECIPIENT_EMAIL` is unset and every other
variable is set to `"x"`. -/
def envNoRecipient : Env := fun v =>
  if v == "RECIPIENT_EMAIL" then none else some "x"

theorem C8_config_failure_before_search_witness :
    "RECIPIENT_EMAIL" ∈ REQUIRED_ENV_VARS ∧
    envNoRecipient "RECIPIENT_EMAIL" = none ∧
    (Src.main envNoRecipient CONFIG ClientInitOutcome.ok provAllEmpty
      SmtpOutcome.ok).queries = [] ∧
    (Src.main envNoRecipient CONFIG ClientInitOutcome.ok provAllEmpty
      SmtpOutcome.ok).notifierInvocations = [] ∧
    (Src.main envNoRecipient CONFIG ClientInitOutcome.ok provAllEmpty
      SmtpOutcome.ok).fatalLogs =
      [mainErrMsg "Missing required environment variables: RECIPIENT_EMAIL"] ∧
    (Src.main envNoRecipient CONFIG ClientInitOutcome.ok provAllEmpty
      SmtpOutcome.ok).fatalLogs.length = 1 := by
  have h := C8_config_failure_before_search envNoRecipient CONFIG
    ClientInitOutcome.ok provAllEmpty SmtpOutcome.ok "RECIPIENT_EMAIL"
    (by decide) (Or.inl rfl)
  refine ⟨by decide, rfl, h.1, h.2.1, ?_, h.2.2.2.1⟩
  rw [h.2.2.1]
  rfl

/-- C9: the notification composer is deterministic and idempotent — the
composed message is a function of the aggregated result and the fixed
sender/recipient identities alone, so composing twice from the same
aggregated result (under any two environments agreeing on those two
variables, in particular the same environment) yields an identical
message. -/
theorem C9_composer_deterministic (env1 env2 : Env) (flights : List Offer)
    (hs : env1 "SENDER_EMAIL" = env2 "SENDER_EMAIL")
    (hr : env1 "RECIPIENT_EMAIL" = env2 "RECIPIENT_EMAIL") :
    composeMessage env1 flights = composeMessage env2 flights := by
  cases hb : buildBody flights <;> simp [composeMessage, hb, hs, hr]

/-- An environment with only the sender and recipient identities set. -/
def envIdentitiesOnly : Env := fun v =>
  if v == "SENDER_EMAIL" || v == "RECIPIENT_EMAIL" then some "x" else none

theorem C9_composer_deterministic_witness :
    envAllSet "SENDER_EMAIL" = envIdentitiesOnly "SENDER_EMAIL" ∧
    envAllSet "RECIPIENT_EMAIL" = envIdentitiesOnly "RECIPIENT_EMAIL" ∧
    composeMessage envAllSet [offerJfkOak] =
      composeMessage envIdentitiesOnly [offerJfkOak] :=
  ⟨rfl, rfl,
    C9_composer_deterministic envAllSet envIdentitiesOnly [offerJfkOak] rfl rfl⟩

/-- A required environment variable that Python treats as missing: unset,
or set to the empty string (both are falsy under `not os.getenv(var)`). -/
def missingOrEmpty (env : Env) (v : String) : Prop :=
  env v = none ∨ env v = some ""

theorem truthyEnv_false_iff (x : Option String) :
    truthyEnv x = false ↔ (x = none ∨ x = some "") := by
  cases x with
  | none => simp [truthyEnv]
  | some s =>
    simp only [truthyEnv, Bool.not_eq_false', beq_iff_eq]
    constructor
    · intro h
      exact Or.inr (by rw [h])
    · rintro (h | h)
      · cases h
      · exact (Option.some.injEq _ _ ▸ congrArg (Option.getD · "?") h)

/-- C10: configuration validation treats a required variable set to the
empty string exactly like an absent one — `validate_env_vars` returns
normally iff no required variable is unset or empty, the reported
`missing_vars` list names exactly the unset-or-empty required variables,
and when one exists the raised error carries that list. -/
theorem C10_empty_string_like_absent (env : Env) :
    (validate_env_vars env = Except.ok () ↔
      ∀ v ∈ REQUIRED_ENV_VARS, ¬ missingOrEmpty env v) ∧
    (∀ v ∈ REQUIRED_ENV_VARS, (v ∈ missing_vars env ↔ missingOrEmpty env v)) ∧
    ((∃ v ∈ REQUIRED_ENV_VARS, missingOrEmpty env v) →
      validate_env_vars env =
        Except.error ("Missing required environment variables: " ++
          String.intercalate ", " (missing_vars env))) := by
  have hmem : ∀ v, v ∈ missing_vars env ↔
      (v ∈ REQUIRED_ENV_VARS ∧ missingOrEmpty env v) := by
    intro v
    rw [missing_vars, List.mem_filter]
    simp only [Bool.not_eq_eq_eq_not, Bool.not_true]
    rw [truthyEnv_false_iff]
    rfl
  refine ⟨?_, fun v hv => (hmem v).trans (and_iff_right hv), ?_⟩
  · constructor
    · intro hok v hv hbad
      by_cases hemp : (missing_vars env).isEmpty
      · have : missing_vars env = [] := List.isEmpty_iff.1 hemp
        exact absurd ((hmem v).2 ⟨hv, hbad⟩) (by simp [this])
      · simp [validate_env_vars, hemp] at hok
    · intro hnone
      have : missing_vars env = [] := by
        by_contra hne
        obtain ⟨v, hvmem⟩ := List.exists_mem_of_ne_nil _ hne
        have := (hmem v).1 hvmem
        exact hnone v this.1 this.2
      simp [validate_env_vars, this]
  · rintro ⟨v, hv, hbad⟩
    have hvmem := (hmem v).2 ⟨hv, hbad⟩
    have hemp : (missing_vars env).isEmpty = false := by
      simpa [List.isEmpty_iff] using List.ne_nil_of_mem hvmem
    simp [validate_env_vars, hemp]

/-- An environment in which `SENDER_EMAIL` is set to the empty string and
every other variable is set to `"x"`. -/
def envEmptySender : Env := fun v =>
  if v == "SENDER_EMAIL" then some "" else some "x"

theorem C10_empty_string_like_absent_witness :
    "SENDER_EMAIL" ∈ REQUIRED_ENV_VARS ∧
    envEmptySender "SENDER_EMAIL" = some "" ∧
    ("SENDER_EMAIL" ∈ missing_vars envEmptySender ↔
      missingOrEmpty envEmptySender "SENDER_EMAIL") ∧
    validate_env_vars envEmptySender =
      Except.error "Missing required environment variables: SENDER_EMAIL" := by
  have h := C10_empty_string_like_absent envEmptySender
  refine ⟨by decide, rfl, h.2.1 "SENDER_EMAIL" (by decide), ?_⟩
  have he := h.2.2 ⟨"SENDER_EMAIL", by decide, Or.inr rfl⟩
  rw [he]
  rfl
